import Mathlib

/-!
# URL Safety Classifier — shallow embedding

A Lean embedding of `tools/check_url_safety.py`: the rule tables
(`SUSPICIOUS_PATTERNS`, `BLOCKLIST`, `WHITELIST`), the `URLSafetyChecker`
class (`check_url`, `_result`, `check_batch`), and just enough of Python's
string and `urllib.parse.urlparse` semantics (over ASCII inputs) to settle
the claims: `str.strip`, `str.lower`, substring membership (`in`), and the
eight regular expressions the rule table uses, interpreted under
`re.search` with `re.IGNORECASE`.
-/

namespace CsohUrlSafety

/-- ASCII whitespace, the characters `str.strip()` removes on ASCII text. -/
def isPySpace (c : Char) : Bool :=
  c = ' ' || c = '\t' || c = '\n' || c = '\r' || c = '\x0b' || c = '\x0c'

/-- `str.lower` on one ASCII character. -/
def pyLowerChar (c : Char) : Char :=
  if 'A' ≤ c && c ≤ 'Z' then Char.ofNat (c.toNat + 32) else c

/-- `str.lower` over a whole string (ASCII case folding). -/
def pyLowerStr (s : String) : String :=
  ⟨s.data.map pyLowerChar⟩

/-- `str.strip()`: drop leading and trailing whitespace. -/
def pyStrip (s : String) : String :=
  ⟨((s.data.dropWhile isPySpace).reverse.dropWhile isPySpace).reverse⟩

/-- Does `needle` occur at the very start of `hay`? -/
def listBegins : List Char → List Char → Bool
  | [], _ => true
  | _ :: _, [] => false
  | a :: as, b :: bs => a = b && listBegins as bs

/-- Does `needle` occur contiguously anywhere in `hay`?  (Python `needle in hay`.) -/
def listContains (needle : List Char) : List Char → Bool
  | [] => listBegins needle []
  | c :: t => listBegins needle (c :: t) || listContains needle t

/-- Python `sub in s` on strings. -/
def strContains (s sub : String) : Bool :=
  listContains sub.data s.data

/-- Python `s.endswith(suffix)`; models a `$`-anchored literal alternative in `re.search`. -/
def strEnds (s suffix : String) : Bool :=
  listBegins suffix.data.reverse s.data.reverse

/-- Scan for `needle` with a gap of non-newline characters allowed first:
the continuation of matching `.*needle` in a regex without `re.DOTALL`. -/
def gapTail (needle : List Char) : List Char → Bool
  | [] => listBegins needle []
  | c :: t => listBegins needle (c :: t) || (decide (c ≠ '\n') && gapTail needle t)

/-- `re.search` of `x.*y` for literals `x`, `y`: some occurrence of `x`
is followed, after newline-free filler, by an occurrence of `y`. -/
def gapSearch (x y : List Char) : List Char → Bool
  | [] => listBegins x [] && gapTail y []
  | c :: t => (listBegins x (c :: t) && gapTail y (List.drop x.length (c :: t))) || gapSearch x y t

/-- `re.search` of `x.*y` over a string. -/
def strGap (s x y : String) : Bool :=
  gapSearch x.data y.data s.data

/-- ASCII decimal digit. -/
def isAsciiDigit (c : Char) : Bool :=
  '0' ≤ c && c ≤ '9'

/-- ASCII letter. -/
def isAsciiAlpha (c : Char) : Bool :=
  ('a' ≤ c && c ≤ 'z') || ('A' ≤ c && c ≤ 'Z')

/-- Consume exactly `n` digits, returning the rest of the input. -/
def grabDigits : Nat → List Char → Option (List Char)
  | 0, s => some s
  | _ + 1, [] => none
  | n + 1, c :: t => if isAsciiDigit c then grabDigits n t else none

/-- All ways to match `[0-9]{1,3}\.` at the head of the input (backtracking). -/
def octetDot (s : List Char) : List (List Char) :=
  [1, 2, 3].filterMap fun n =>
    match grabDigits n s with
    | some ('.' :: r) => some r
    | _ => none

/-- Can `[0-9]{1,3}` match at the head of the input? -/
def octetEnd (s : List Char) : Bool :=
  [1, 2, 3].any fun n => (grabDigits n s).isSome

/-- Does the dotted-quad regex match starting exactly here? -/
def ipv4At (s : List Char) : Bool :=
  (octetDot s).any fun r1 => (octetDot r1).any fun r2 => (octetDot r2).any fun r3 => octetEnd r3

/-- `re.search` of the dotted-quad pattern: a match starting at any position. -/
def ipv4Search : List Char → Bool
  | [] => ipv4At []
  | c :: t => ipv4At (c :: t) || ipv4Search t

/-- Python `s.split('.')`: split at every dot, keeping empty pieces. -/
def splitOnDot : List Char → List (List Char)
  | [] => [[]]
  | c :: t =>
    if c = '.' then [] :: splitOnDot t
    else
      match splitOnDot t with
      | [] => [[c]]
      | h :: r => (c :: h) :: r

/-- `SUSPICIOUS_PATTERNS` from the source, verbatim regex source strings. -/
def SUSPICIOUS_PATTERNS : List String :=
  [ "bit\\.ly|goo\\.gl|tinyurl\\.com|ow\\.ly|t\\.co",
    "@",
    "\\.tk$|\\.ml$|\\.ga$|\\.cf$|\\.gq$",
    "[0-9]\x7b1,3\x7d\\.[0-9]\x7b1,3\x7d\\.[0-9]\x7b1,3\x7d\\.[0-9]\x7b1,3\x7d",
    "paypal|amazon|microsoft|google|apple.*login",
    "secure.*account|verify.*account|suspended.*account",
    "exe$|\\.scr$|\\.bat$|\\.cmd$|\\.vbs$",
    "-\x7b10,\x7d" ]

/-- The URL-shortener alternation, on an already lower-cased string. -/
def shortenerMatch (u : String) : Bool :=
  strContains u "bit.ly" || strContains u "goo.gl" || strContains u "tinyurl.com" ||
    strContains u "ow.ly" || strContains u "t.co"

/-- The free-TLD alternation: every alternative is `$`-anchored to the end of the
searched string, so it matches only when the whole URL ends in the TLD. -/
def tldMatch (u : String) : Bool :=
  strEnds u ".tk" || strEnds u ".ml" || strEnds u ".ga" || strEnds u ".cf" || strEnds u ".gq"

/-- The brand alternation `paypal|amazon|microsoft|google|apple.*login`: the
`.*login` tail binds only to the `apple` alternative (regex `|` precedence). -/
def brandMatch (u : String) : Bool :=
  strContains u "paypal" || strContains u "amazon" || strContains u "microsoft" ||
    strContains u "google" || strGap u "apple" "login"

/-- The phishing-phrase alternation `secure.*account|verify.*account|suspended.*account`. -/
def phraseMatch (u : String) : Bool :=
  strGap u "secure" "account" || strGap u "verify" "account" || strGap u "suspended" "account"

/-- The executable-extension alternation; the first alternative is `exe$`, bare. -/
def exeMatch (u : String) : Bool :=
  strEnds u "exe" || strEnds u ".scr" || strEnds u ".bat" || strEnds u ".cmd" || strEnds u ".vbs"

/-- `re.search(pattern, s, re.IGNORECASE)` for exactly the eight regexes of the
rule table (case-insensitivity realised by lower-casing the subject). -/
def reSearchCI (pat : String) (s : String) : Bool :=
  let u := pyLowerStr s
  if pat = "bit\\.ly|goo\\.gl|tinyurl\\.com|ow\\.ly|t\\.co" then shortenerMatch u
  else if pat = "@" then strContains u "@"
  else if pat = "\\.tk$|\\.ml$|\\.ga$|\\.cf$|\\.gq$" then tldMatch u
  else if pat = "[0-9]\x7b1,3\x7d\\.[0-9]\x7b1,3\x7d\\.[0-9]\x7b1,3\x7d\\.[0-9]\x7b1,3\x7d" then
    ipv4Search u.data
  else if pat = "paypal|amazon|microsoft|google|apple.*login" then brandMatch u
  else if pat = "secure.*account|verify.*account|suspended.*account" then phraseMatch u
  else if pat = "exe$|\\.scr$|\\.bat$|\\.cmd$|\\.vbs$" then exeMatch u
  else if pat = "-\x7b10,\x7d" then strContains u "----------"
  else false

/-- `BLOCKLIST` from the source. -/
def BLOCKLIST : List String :=
  ["malicious-example.com", "spam-domain.tk"]

/-- `WHITELIST` from the source. -/
def WHITELIST : List String :=
  [ "github.com", "youtube.com", "wiz.io", "aws.amazon.com", "docs.aws.amazon.com",
    "owasp.org", "cisa.gov", "nist.gov", "csoh.org", "microsoft.com", "google.com",
    "cloudflare.com", "wikipedia.org" ]

/-- The slice of `urllib.parse.urlparse`'s result that `check_url` consumes. -/
structure ParseResult where
  scheme : String
  netloc : String
deriving DecidableEq

/-- A scheme character: ASCII letter, digit, `+`, `-` or `.`. -/
def isSchemeChar (c : Char) : Bool :=
  isAsciiAlpha c || isAsciiDigit c || c = '+' || c = '-' || c = '.'

/-- C0 control or space, stripped from both ends by `urlsplit`. -/
def isC0OrSpace (c : Char) : Bool :=
  c.toNat ≤ 0x20

/-- Tab, CR and LF, removed everywhere by `urlsplit`. -/
def isUnsafeUrlChar (c : Char) : Bool :=
  c = '\t' || c = '\r' || c = '\n'

/-- `urllib.parse.urlparse`, restricted to the `scheme` and `netloc` components
(the only ones `check_url` reads): strip C0-control/space from both ends and
remove tab, CR, LF; split a `scheme:` prefix when it is a letter followed by
scheme characters, lower-casing it; take `netloc` after `//` up to `/`, `?` or
`#`; raise `ValueError` on netloc bracket imbalance (`Invalid IPv6 URL`). -/
def urlparse (url : String) : Except String ParseResult :=
  let cs0 := ((url.data.dropWhile isC0OrSpace).reverse.dropWhile isC0OrSpace).reverse
  let cs := cs0.filter fun c => !isUnsafeUrlChar c
  let schemeRest : List Char × List Char :=
    match cs.findIdx? (· = ':') with
    | some i =>
      match cs.take i with
      | [] => ([], cs)
      | c :: rest =>
        if isAsciiAlpha c && (c :: rest).all isSchemeChar then
          ((c :: rest).map pyLowerChar, cs.drop (i + 1))
        else ([], cs)
    | none => ([], cs)
  let netloc : List Char :=
    match schemeRest.2 with
    | '/' :: '/' :: r => r.takeWhile fun c => c ≠ '/' && c ≠ '?' && c ≠ '#'
    | _ => []
  if (netloc.contains '[' && !netloc.contains ']') ||
      (netloc.contains ']' && !netloc.contains '[') then
    Except.error "Invalid IPv6 URL"
  else
    Except.ok ⟨⟨schemeRest.1⟩, ⟨netloc⟩⟩

/-- The verdict dictionary `_result` builds: keys `safe`, `warnings`, `errors`,
`suspicious`. -/
structure Verdict where
  safe : Bool
  warnings : List String
  errors : List String
  suspicious : Bool
deriving DecidableEq

/-- The mutable fields of `URLSafetyChecker`. -/
structure CheckerState where
  warnings : List String
  errors : List String
deriving DecidableEq

/-- `URLSafetyChecker._result`: `safe and len(errors) == 0`, `suspicious` iff
any warning was recorded. -/
def _result (self : CheckerState) (safe : Bool) : Verdict :=
  { safe := safe && self.errors.isEmpty
    warnings := self.warnings
    errors := self.errors
    suspicious := !self.warnings.isEmpty }

/-- A Python value passed where a `str` is expected: either an actual string
or a value of some other type (`None`, an `int`, ...). -/
inductive PyInput where
  | str : String → PyInput
  | nonString : PyInput
deriving DecidableEq

/-- Lines 87–126 of `check_url`: everything after a successful parse —
scheme check, HTTP warning, host presence, blocklist, allowlist gate and
heuristic scan, ending in `_result`. -/
def scanTail (url : String) (parsed : ParseResult) (self : CheckerState) :
    CheckerState × Verdict :=
  if parsed.scheme ∉ ["http", "https"] then
    let self := { self with
      errors := self.errors ++ ["Invalid scheme: " ++ parsed.scheme ++ " (only http/https allowed)"] }
    (self, _result self false)
  else
    let self :=
      if parsed.scheme = "http" then
        { self with warnings := self.warnings ++ ["Uses HTTP (not HTTPS) - may be insecure"] }
      else self
    let domain := pyLowerStr parsed.netloc
    if domain = "" then
      let self := { self with errors := self.errors ++ ["No domain found in URL"] }
      (self, _result self false)
    else if BLOCKLIST.any (fun blocked => strContains domain blocked) then
      let self := { self with
        errors := self.errors ++ ["Domain \x27" ++ domain ++ "\x27 is on blocklist"] }
      (self, _result self false)
    else
      let is_whitelisted := WHITELIST.any fun w => strContains domain w
      let self :=
        if is_whitelisted then self
        else
          let self := { self with
            warnings := self.warnings ++
              (SUSPICIOUS_PATTERNS.filter (fun pattern => reSearchCI pattern url)).map
                (fun pattern => "Suspicious pattern detected: " ++ pattern) }
          let self :=
            if domain.length > 50 then
              { self with warnings := self.warnings ++
                  ["Unusually long domain: " ++ toString domain.length ++ " characters"] }
            else self
          let parts := splitOnDot domain.data
          if parts.length > 5 then
            { self with warnings := self.warnings ++
                ["Excessive subdomains: " ++ toString parts.length ++ " levels"] }
          else self
    (self, _result self true)

set_option linter.unusedVariables false in
/-- `URLSafetyChecker.check_url`.  The method first resets `self.warnings`
and `self.errors`, so its behaviour is independent of the incoming state. -/
def check_url (self : CheckerState) (input : PyInput) : CheckerState × Verdict :=
  let self : CheckerState := { warnings := [], errors := [] }
  match input with
  | .nonString =>
    let self := { self with errors := self.errors ++ ["Invalid URL: empty or not a string"] }
    (self, _result self false)
  | .str url₀ =>
    if url₀ = "" then
      let self := { self with errors := self.errors ++ ["Invalid URL: empty or not a string"] }
      (self, _result self false)
    else
      let url := pyStrip url₀
      match urlparse url with
      | .error e =>
        let self := { self with errors := self.errors ++ ["Failed to parse URL: " ++ e] }
        (self, _result self false)
      | .ok parsed => scanTail url parsed self

/-- `classify`: the verdict of one `check_url` call on a fresh checker. -/
def classify (input : PyInput) : Verdict :=
  (check_url { warnings := [], errors := [] } input).2

/-- `url.strip()` as Python evaluates it: raises `AttributeError` when the
value is not a string. -/
def pyStripE (input : PyInput) : Except String String :=
  match input with
  | .str s => .ok (pyStrip s)
  | .nonString => .error "AttributeError"

/-- `check_url` with the exception surface explicit: `url.strip()` may raise
on a non-string (the isinstance guard must fire first) and `urlparse` may
raise `ValueError` (the `try`/`except` must catch it).  An uncaught
exception would surface as `Except.error`. -/
def check_urlE (input : PyInput) : Except String Verdict := do
  match input with
  | .nonString =>
    pure (_result { warnings := [], errors := ["Invalid URL: empty or not a string"] } false)
  | .str url₀ =>
    if url₀ = "" then
      pure (_result { warnings := [], errors := ["Invalid URL: empty or not a string"] } false)
    else do
      let url ← pyStripE input
      match urlparse url with
      | .error e =>
        pure (_result { warnings := [], errors := ["Failed to parse URL: " ++ e] } false)
      | .ok parsed => pure (scanTail url parsed { warnings := [], errors := [] }).2

/-- `URLSafetyChecker.check_batch`: check every URL in order, pairing each
with its verdict, threading the (reset-on-entry) checker state through. -/
def check_batch (self : CheckerState) (urls : List String) :
    CheckerState × List (String × Verdict) :=
  match urls with
  | [] => (self, [])
  | url :: rest =>
    let step := check_url self (.str url)
    let tail := check_batch step.1 rest
    (tail.1, (url, step.2) :: tail.2)


/-! ## Helper lemmas -/

/-- Two strings with different first characters are different. -/
lemma string_ne_of_head (a b : String) (c d : Char)
    (ha : a.data.head? = some c) (hb : b.data.head? = some d) (hcd : c ≠ d) : a ≠ b := by
  intro h
  rw [h] at ha
  exact hcd (Option.some.inj (ha.symm.trans hb))

/-- The head of `dropWhile p l` does not satisfy `p`. -/
lemma dropWhile_head_not (p : Char → Bool) :
    ∀ l c t, List.dropWhile p l = c :: t → p c = false := by
  intro l
  induction l with
  | nil => intro c t h; exact absurd h (by simp)
  | cons a as ih =>
    intro c t h
    rw [List.dropWhile_cons] at h
    by_cases hpa : p a = true
    · rw [if_pos hpa] at h; exact ih c t h
    · rw [if_neg hpa] at h
      cases h
      simpa using hpa

/-- Stripping both ends once more changes nothing. -/
lemma strip_aux (l : List Char) :
    List.rdropWhile isPySpace
        ((List.rdropWhile isPySpace (l.dropWhile isPySpace)).dropWhile isPySpace)
      = List.rdropWhile isPySpace (l.dropWhile isPySpace) := by
  have h1 : (List.rdropWhile isPySpace (l.dropWhile isPySpace)).dropWhile isPySpace
      = List.rdropWhile isPySpace (l.dropWhile isPySpace) := by
    obtain ⟨r, hr⟩ := List.rdropWhile_prefix isPySpace (l.dropWhile isPySpace)
    cases hb : List.rdropWhile isPySpace (l.dropWhile isPySpace) with
    | nil => rfl
    | cons c t =>
      rw [hb] at hr
      have hc : isPySpace c = false :=
        dropWhile_head_not isPySpace l c (t ++ r) hr.symm
      rw [List.dropWhile_cons, hc]
      simp
  rw [h1, List.rdropWhile_idempotent]

/-- `str.strip` is idempotent. -/
lemma pyStrip_idem (s : String) : pyStrip (pyStrip s) = pyStrip s :=
  congrArg String.mk (strip_aux s.data)

/-- A brand-rule warning in the scan output is exactly a hit of the brand
alternation: the existential the heuristic scan produces, resolved against
the concrete eight-entry rule table. -/
lemma brand_exists_iff (url : String) :
    (∃ a, (a ∈ SUSPICIOUS_PATTERNS ∧ reSearchCI a url = true) ∧
        "Suspicious pattern detected: " ++ a =
          "Suspicious pattern detected: paypal|amazon|microsoft|google|apple.*login") ↔
      brandMatch (pyLowerStr url) = true := by
  constructor
  · rintro ⟨p, ⟨hpmem, hpq⟩, he⟩
    simp only [SUSPICIOUS_PATTERNS, List.mem_cons, List.not_mem_nil, or_false] at hpmem
    rcases hpmem with rfl | rfl | rfl | rfl | rfl | rfl | rfl | rfl
    · exact absurd he (by decide)
    · exact absurd he (by decide)
    · exact absurd he (by decide)
    · exact absurd he (by decide)
    · exact hpq
    · exact absurd he (by decide)
    · exact absurd he (by decide)
    · exact absurd he (by decide)
  · intro hb
    exact ⟨"paypal|amazon|microsoft|google|apple.*login", ⟨by decide, hb⟩, rfl⟩

/-! ## Claims -/

/-- C1 (counterexample): for `http://malicious-example.com` — a URL whose host
is on the blocklist and whose scheme is `http` — the verdict records the
blocklist error but its warnings are not empty: the insecure-transport warning,
recorded before the blocklist check runs, stays in the verdict, contradicting
the claim that no warning from any other check appears. -/
theorem blocklist_http_warning_cex :
    (classify (.str "http://malicious-example.com")).errors =
        ["Domain \x27malicious-example.com\x27 is on blocklist"] ∧
      (classify (.str "http://malicious-example.com")).warnings =
        ["Uses HTTP (not HTTPS) - may be insecure"] := by decide

/-- C1 (amended): when a URL passes the emptiness, parse, scheme and
host-presence checks and its lower-cased host contains a blocklist entry,
`classify` returns `safe = false` with exactly the blocklist error and skips
every later check; the warnings are exactly the insecure-transport warning
when the scheme is `http`, and empty otherwise. -/
theorem blocklisted_domain (s : String) (pr : ParseResult)
    (h0 : s ≠ "")
    (h1 : urlparse (pyStrip s) = .ok pr)
    (h2 : pr.scheme = "http" ∨ pr.scheme = "https")
    (h3 : pyLowerStr pr.netloc ≠ "")
    (h4 : BLOCKLIST.any (fun blocked => strContains (pyLowerStr pr.netloc) blocked) = true) :
    classify (.str s) =
      if pr.scheme = "http" then
        { safe := false
          warnings := ["Uses HTTP (not HTTPS) - may be insecure"]
          errors := ["Domain \x27" ++ pyLowerStr pr.netloc ++ "\x27 is on blocklist"]
          suspicious := true }
      else
        { safe := false
          warnings := []
          errors := ["Domain \x27" ++ pyLowerStr pr.netloc ++ "\x27 is on blocklist"]
          suspicious := false } := by
  rcases h2 with h2 | h2 <;>
    simp only [classify, check_url, if_neg h0, h1, scanTail, h2, h4, if_neg h3, _result] <;>
    simp

/-- C1 (witness): the amended theorem applied to `http://malicious-example.com`. -/
theorem blocklisted_domain_witness :
    classify (.str "http://malicious-example.com") =
      if ("http" : String) = "http" then
        { safe := false
          warnings := ["Uses HTTP (not HTTPS) - may be insecure"]
          errors := ["Domain \x27malicious-example.com\x27 is on blocklist"]
          suspicious := true }
      else
        { safe := false
          warnings := []
          errors := ["Domain \x27malicious-example.com\x27 is on blocklist"]
          suspicious := false } :=
  blocklisted_domain "http://malicious-example.com" ⟨"http", "malicious-example.com"⟩
    (by decide) rfl (Or.inl rfl) (by decide) (by decide)

/-- C2 (counterexample): `https://paypal-fake.com/deal` contains the brand name
`paypal` but the token `login` appears nowhere in it, yet the
brand-impersonation rule records its warning — contradicting the claim that a
brand name without `login` does not by itself trigger the rule. -/
theorem brand_without_login_cex :
    ("Suspicious pattern detected: paypal|amazon|microsoft|google|apple.*login" ∈
        (classify (.str "https://paypal-fake.com/deal")).warnings) ∧
      strContains (pyLowerStr (pyStrip "https://paypal-fake.com/deal")) "login" = false := by
  decide

/-- C2 (amended): for every non-allowlisted URL that reaches the heuristic
scan, the brand-impersonation rule records its warning if and only if the
lower-cased URL contains `paypal`, `amazon`, `microsoft` or `google` anywhere
— irrespective of `login` — or contains `apple` followed (with no intervening
newline) by `login`: in the source regex the `.*login` tail binds only to the
`apple` alternative. -/
theorem brand_rule (s : String) (pr : ParseResult)
    (h0 : s ≠ "")
    (h1 : urlparse (pyStrip s) = .ok pr)
    (h2 : pr.scheme = "http" ∨ pr.scheme = "https")
    (h3 : pyLowerStr pr.netloc ≠ "")
    (h4 : BLOCKLIST.any (fun blocked => strContains (pyLowerStr pr.netloc) blocked) = false)
    (h5 : WHITELIST.any (fun w => strContains (pyLowerStr pr.netloc) w) = false) :
    ("Suspicious pattern detected: paypal|amazon|microsoft|google|apple.*login" ∈
        (classify (.str s)).warnings) ↔
      (strContains (pyLowerStr (pyStrip s)) "paypal" ||
        strContains (pyLowerStr (pyStrip s)) "amazon" ||
        strContains (pyLowerStr (pyStrip s)) "microsoft" ||
        strContains (pyLowerStr (pyStrip s)) "google" ||
        strGap (pyLowerStr (pyStrip s)) "apple" "login") = true := by
  have hne1 : ("Suspicious pattern detected: paypal|amazon|microsoft|google|apple.*login" :
      String) ≠ "Uses HTTP (not HTTPS) - may be insecure" := by decide
  have hne2 : ("Suspicious pattern detected: paypal|amazon|microsoft|google|apple.*login" :
      String) ≠
      "Unusually long domain: " ++ toString (pyLowerStr pr.netloc).length ++ " characters" :=
    string_ne_of_head _ _ 'S' 'U' rfl rfl (by decide)
  have hne3 : ("Suspicious pattern detected: paypal|amazon|microsoft|google|apple.*login" :
      String) ≠
      "Excessive subdomains: " ++ toString (splitOnDot (pyLowerStr pr.netloc).data).length ++
        " levels" :=
    string_ne_of_head _ _ 'S' 'E' rfl rfl (by decide)
  rcases h2 with h2 | h2 <;>
    simp only [classify, check_url, if_neg h0, h1, scanTail, h2, h4, h5, if_neg h3, _result] <;>
    by_cases hl : (pyLowerStr pr.netloc).length > 50 <;>
    by_cases hd : (splitOnDot (pyLowerStr pr.netloc).data).length > 5 <;>
    simp [hl, hd, hne1, hne2, hne3] <;>
    rw [brand_exists_iff] <;>
    simp [brandMatch]

/-- C2 (witness): the amended theorem applied to `https://paypal-fake.com/deal`,
whose lower-cased form contains `paypal`, so the rule fires. -/
theorem brand_rule_witness :
    "Suspicious pattern detected: paypal|amazon|microsoft|google|apple.*login" ∈
      (classify (.str "https://paypal-fake.com/deal")).warnings :=
  (brand_rule "https://paypal-fake.com/deal" ⟨"https", "paypal-fake.com"⟩
    (by decide) rfl (Or.inr rfl) (by decide) (by decide) (by decide)).mpr (by decide)

/-- C3 (counterexample): on `https://secure-verify-account.tk/login` the claim
asserts a warning for the suspicious free TLD, but no TLD warning is recorded:
the `\.tk$` alternative anchors to the end of the whole URL, which ends in
`/login`, not `.tk`. -/
theorem tk_scenario_no_tld_warning_cex :
    "Suspicious pattern detected: \\.tk$|\\.ml$|\\.ga$|\\.cf$|\\.gq$" ∉
      (classify (.str "https://secure-verify-account.tk/login")).warnings := by decide

/-- C3 (amended): `classify "https://secure-verify-account.tk/login"` returns
`safe = true` and `suspicious = true`, with exactly one warning, for the
phishing-phrase pattern; the free-TLD warning the claim also expects is absent
because that pattern is `$`-anchored to the full URL string. -/
theorem tk_scenario_verdict :
    classify (.str "https://secure-verify-account.tk/login") =
      { safe := true
        warnings :=
          ["Suspicious pattern detected: secure.*account|verify.*account|suspended.*account"]
        errors := []
        suspicious := true } := by decide

/-- C4: `classify` is total — with the exception surface made explicit
(`url.strip()` raising on non-strings, `urlparse` raising `ValueError`),
`check_url` always returns `Except.ok` of the verdict `classify` computes:
the isinstance guard runs before `strip` and the `try`/`except` catches the
parser, so no input of any shape propagates an exception to the caller. -/
theorem never_raises (input : PyInput) : check_urlE input = .ok (classify input) := by
  cases input with
  | nonString => rfl
  | str s =>
    by_cases h0 : s = ""
    · subst h0; rfl
    · simp only [check_urlE, classify, check_url, if_neg h0, pyStripE, Except.bind, bind]
      cases hp : urlparse (pyStrip s) with
      | error e => simp only [hp]; rfl
      | ok parsed => simp only [hp]; rfl

/-- C5: a non-empty URL that parses with scheme `https`, has a host, misses
the blocklist and whose host contains an allowlist entry gets a verdict with
`safe = true` and no warnings at all: the allowlist gate skips the heuristic
pattern scan together with the length and subdomain checks, and an `https`
scheme records no transport warning. -/
theorem allowlisted_https (s : String) (pr : ParseResult)
    (h0 : s ≠ "")
    (h1 : urlparse (pyStrip s) = .ok pr)
    (h2 : pr.scheme = "https")
    (h3 : pyLowerStr pr.netloc ≠ "")
    (h4 : BLOCKLIST.any (fun blocked => strContains (pyLowerStr pr.netloc) blocked) = false)
    (h5 : WHITELIST.any (fun w => strContains (pyLowerStr pr.netloc) w) = true) :
    classify (.str s) = { safe := true, warnings := [], errors := [], suspicious := false } := by
  simp only [classify, check_url, if_neg h0, h1, scanTail, h2, h4, h5, if_neg h3]
  simp [_result]

/-- C5 (witness): the theorem applied to `https://github.com/some/repo`. -/
theorem allowlisted_https_witness :
    classify (.str "https://github.com/some/repo") =
      { safe := true, warnings := [], errors := [], suspicious := false } :=
  allowlisted_https "https://github.com/some/repo" ⟨"https", "github.com"⟩
    (by decide) rfl rfl (by decide) (by decide) (by decide)

/-- C6: every verdict `classify` returns satisfies both coherence equations:
`safe` is false exactly when some error was recorded, and `suspicious` is true
exactly when some warning was recorded. -/
theorem verdict_coherent (input : PyInput) :
    ((classify input).safe = false ↔ (classify input).errors ≠ []) ∧
      ((classify input).suspicious = true ↔ (classify input).warnings ≠ []) := by
  cases input with
  | nonString => decide
  | str s =>
    by_cases h0 : s = ""
    · subst h0; decide
    · simp only [classify, check_url, if_neg h0]
      cases hp : urlparse (pyStrip s) with
      | error e => simp [_result]
      | ok parsed =>
        simp only [hp, scanTail, _result]
        repeat' split
        all_goals simp

/-- C7: every verdict `classify` returns contains at most one error — the
first failing hard check appends its error and returns immediately, so the
errors list never reaches length two. -/
theorem errors_at_most_one (input : PyInput) : (classify input).errors.length ≤ 1 := by
  cases input with
  | nonString => decide
  | str s =>
    by_cases h0 : s = ""
    · subst h0; decide
    · simp only [classify, check_url, if_neg h0]
      cases hp : urlparse (pyStrip s) with
      | error e => simp [_result]
      | ok parsed =>
        simp only [hp, scanTail, _result]
        repeat' split
        all_goals simp

/-- C8: an empty string, or a value that is not a string, yields a verdict
with `safe = false`, at least one error and no warnings. -/
theorem invalid_input_rejected (input : PyInput)
    (h : input = .str "" ∨ input = .nonString) :
    (classify input).safe = false ∧ (classify input).errors ≠ [] ∧
      (classify input).warnings = [] := by
  rcases h with h | h <;> subst h <;> decide

/-- C8 (witness): the theorem applied to the empty string. -/
theorem invalid_input_rejected_witness :
    (classify (.str "")).safe = false ∧ (classify (.str "")).errors ≠ [] ∧
      (classify (.str "")).warnings = [] :=
  invalid_input_rejected (.str "") (Or.inl rfl)

/-- C9: `check_batch`, from any starting checker state, returns one pair per
input URL, in input order, whose verdict is exactly what an independent
`classify` call on that URL produces — `check_url`'s reset of the shared
state makes every call independent of the ones before it. -/
theorem check_batch_maps_classify (self : CheckerState) (urls : List String) :
    (check_batch self urls).2 = (urls.map fun url => (url, classify (.str url))) ∧
      (check_batch self urls).2.length = urls.length := by
  have hmap : (check_batch self urls).2 = urls.map fun url => (url, classify (.str url)) := by
    induction urls generalizing self with
    | nil => rfl
    | cons u rest ih => simp only [check_batch, List.map, ih]; rfl
  exact ⟨hmap, by rw [hmap, List.length_map]⟩

/-- C10: classification never depends on surrounding whitespace — for a
non-empty string whose stripped form is also non-empty, `classify` returns
the same verdict on the original and on the stripped string, because every
check after the emptiness test operates on the stripped URL and `strip` is
idempotent. -/
theorem strip_invariant (s : String) (h0 : s ≠ "") (h1 : pyStrip s ≠ "") :
    classify (.str s) = classify (.str (pyStrip s)) := by
  simp only [classify, check_url, if_neg h0, if_neg h1, pyStrip_idem]

/-- C10 (witness): the theorem applied to `"  http://example.com"`. -/
theorem strip_invariant_witness :
    classify (.str "  http://example.com") =
      classify (.str (pyStrip "  http://example.com")) :=
  strip_invariant "  http://example.com" (by decide) (by decide)

end CsohUrlSafety
